import Mathlib

/-!
Verification of the social-media script generator pipeline (`app.py`).

The program is a three-step prompt chain (outline → script → hashtags) over a
mutable `ScriptState` record, driven by a single HTTP completion client
(`call_groq_api`) and rendered into one display string (`generate_script`),
behind a form handler that rejects blank topics.

Shallow embedding conventions:
* Python strings are Lean `String`s; Python `str.strip()` is `pyStrip`
  (drop leading and trailing whitespace on the underlying character list).
* The remote HTTP endpoint is abstracted as a function from the prompt to an
  `HttpResponse` (status code, body text, and the completion content found at
  `choices[0].message.content` when the status is 200).
* At the pipeline level the completion client is abstracted as an `Oracle`:
  the response to the n-th call, given the prompt, is either a returned string
  (`CallResult.ok`, covering both genuine completions and the sentinel
  "Error: <status> - <body>" strings that `call_groq_api` returns for non-200
  responses) or a raised transport fault (`CallResult.exn`, carrying the
  Python exception text `str(e)`).  Each node threads a call counter so that
  the number of network calls attempted is observable.
* `state.get('platform', 'Any')` and `state.get('platform', 'social media')`
  read the `platform` key, which is always present in states built by
  `generate_script` (the TypedDict constructor supplies every key), so the
  `.get` defaults never fire; the embedding therefore reads the field
  directly, which is exactly what the Python does on every reachable state.
* `os.getenv("GROQ_API_KEY")` is an `Option String`; Python string
  interpolation of `None` yields the text "None" (`pyStrOfOpt`).
-/

/-- Whitespace test used by Python `str.strip()` on the inputs this program
handles (space, tab, carriage return, line feed). -/
def isPyWs (c : Char) : Bool := c.isWhitespace

/-- Drop leading whitespace from a character list. -/
def stripLeft (l : List Char) : List Char := l.dropWhile isPyWs

/-- Drop trailing whitespace from a character list. -/
def stripRight (l : List Char) : List Char := (l.reverse.dropWhile isPyWs).reverse

/-- Embedding of Python `str.strip()`: remove leading and trailing whitespace. -/
def pyStrip (s : String) : String := ⟨stripRight (stripLeft s.data)⟩

/-- Python `f"...{x}..."` interpolation of an optional string: `None` prints
as the text "None". -/
def pyStrOfOpt : Option String → String
  | none => "None"
  | some s => s

/-- Does `needle` occur contiguously inside `hay`?  (Character-list level.) -/
def occursIn (needle : List Char) : List Char → Bool
  | [] => needle.isEmpty
  | c :: rest => needle.isPrefixOf (c :: rest) || occursIn needle rest

/-- Does the string `needle` occur contiguously (verbatim) inside `hay`? -/
def strOccurs (needle hay : String) : Bool := occursIn needle.data hay.data

/-- The LangGraph state record `ScriptState` (TypedDict) from `app.py`. -/
structure ScriptState where
  topic : String
  duration : Nat
  tone : String
  platform : String
  language : String
  script_outline : String
  final_script : String
  hashtags : String
  error : String
deriving DecidableEq, Repr

/-- An HTTP response from the completion endpoint: status code, raw body text,
and the parsed completion content `choices[0].message.content` (meaningful when
the status is 200). -/
structure HttpResponse where
  status_code : Nat
  text : String
  content : String
deriving DecidableEq, Repr

/-- Embedding of `call_groq_api` (app.py lines 28-46): POST the prompt to the
endpoint; on HTTP 200 return the stripped content of the first choice, on any
other status return the sentinel string "Error: <status> - <body>".  The remote
endpoint is abstracted as a function from the prompt to the response. -/
def call_groq_api (endpoint : String → HttpResponse) (prompt : String) : String :=
  let response := endpoint prompt
  if response.status_code = 200 then
    pyStrip response.content
  else
    "Error: " ++ toString response.status_code ++ " - " ++ response.text

/-- Outcome of one completion-client call as seen by a pipeline node: either a
returned string or a raised transport fault (Python exception) whose `str(e)`
text is carried. -/
inductive CallResult where
  | ok (text : String)
  | exn (msg : String)
deriving DecidableEq, Repr

/-- A stubbed completion client for the pipeline: the response to the n-th
call, given the prompt sent on that call. -/
def Oracle : Type := Nat → String → CallResult

/-- An oracle that never raises and always answers with `call_groq_api`
against a fixed endpoint (the program's actual client path when the HTTP
library does not raise). -/
def oracle_of_endpoint (endpoint : String → HttpResponse) : Oracle :=
  fun _ prompt => CallResult.ok (call_groq_api endpoint prompt)

/-- The `outline_prompt` f-string of `create_outline_node` (app.py 51-62). -/
def outline_prompt (s : ScriptState) : String :=
  "\n    Create a detailed outline for a " ++ toString s.duration ++
  "-second social media script about \"" ++ s.topic ++ "\" in " ++ s.language ++
  ".\n    Tone: " ++ s.tone ++
  "\n    Platform: " ++ s.platform ++
  "\n    \n    Provide a structured outline with:\n    1. Hook/Intro (first 5-10 seconds)\n    2. Main content points (middle section)\n    3. Call-to-action (last 5-10 seconds)\n    \n    Consider the platform's audience and format requirements.\n    "

/-- The `script_prompt` f-string of `generate_script_node` (app.py 77-87). -/
def script_prompt (s : ScriptState) : String :=
  "\n    Based on this outline: " ++ s.script_outline ++
  "\n    \n    Write a complete " ++ toString s.duration ++
  "-second social media script about \"" ++ s.topic ++ "\" in " ++ s.language ++
  ".\n    Tone: " ++ s.tone ++
  "\n    Platform: " ++ s.platform ++
  "\n    \n    Make it engaging, conversational, and appropriate for the platform.\n    Include timing cues and natural pauses.\n    Ensure it fits within " ++ toString s.duration ++ " seconds when spoken at normal pace.\n    "

/-- The `hashtag_prompt` f-string of `generate_hashtags_node` (app.py 102-114). -/
def hashtag_prompt (s : ScriptState) : String :=
  "\n    Based on this script: " ++ s.final_script ++
  "\n    \n    Generate:\n    1. 8-10 relevant hashtags for " ++ s.platform ++
  "\n    2. A compelling caption/description\n    \n    Topic: " ++ s.topic ++
  "\n    Platform: " ++ s.platform ++
  "\n    Language: " ++ s.language ++
  "\n    \n    Make hashtags trending and platform-appropriate.\n    "

/-- Embedding of `create_outline_node` (app.py 49-70): call the client on the
outline prompt; store the returned string in `script_outline`, or on a raised
fault store the prefixed exception text in `error`.  The pair's second
component counts completed client calls. -/
def create_outline_node (oracle : Oracle) (sn : ScriptState × Nat) : ScriptState × Nat :=
  match oracle sn.2 (outline_prompt sn.1) with
  | CallResult.ok outline => ({ sn.1 with script_outline := outline }, sn.2 + 1)
  | CallResult.exn e => ({ sn.1 with error := "Error creating outline: " ++ e }, sn.2 + 1)

/-- Embedding of `generate_script_node` (app.py 72-95): a no-op when `error`
is already non-empty, otherwise call the client on the script prompt and store
the result in `final_script`, or on a raised fault set `error`. -/
def generate_script_node (oracle : Oracle) (sn : ScriptState × Nat) : ScriptState × Nat :=
  if sn.1.error ≠ "" then sn
  else
    match oracle sn.2 (script_prompt sn.1) with
    | CallResult.ok script => ({ sn.1 with final_script := script }, sn.2 + 1)
    | CallResult.exn e => ({ sn.1 with error := "Error generating script: " ++ e }, sn.2 + 1)

/-- Embedding of `generate_hashtags_node` (app.py 97-122): a no-op when
`error` is already non-empty, otherwise call the client on the hashtag prompt
and store the result in `hashtags`, or on a raised fault set `error`. -/
def generate_hashtags_node (oracle : Oracle) (sn : ScriptState × Nat) : ScriptState × Nat :=
  if sn.1.error ≠ "" then sn
  else
    match oracle sn.2 (hashtag_prompt sn.1) with
    | CallResult.ok hashtags => ({ sn.1 with hashtags := hashtags }, sn.2 + 1)
    | CallResult.exn e => ({ sn.1 with error := "Error generating hashtags: " ++ e }, sn.2 + 1)

/-- The compiled LangGraph workflow (app.py 125-139): the fixed linear chain
create_outline → generate_script → generate_hashtags. -/
def invoke_workflow (oracle : Oracle) (s : ScriptState) : ScriptState × Nat :=
  generate_hashtags_node oracle (generate_script_node oracle (create_outline_node oracle (s, 0)))

/-- The `initial_state` record built by `generate_script` (app.py 145-155):
user inputs plus empty content and error fields. -/
def initial_state (topic : String) (duration : Nat) (tone platform language : String) :
    ScriptState :=
  { topic := topic, duration := duration, tone := tone, platform := platform,
    language := language, script_outline := "", final_script := "", hashtags := "",
    error := "" }

/-- The three fixed section headings of the rendered output (app.py 165-171). -/
def outlineHeading : String := "## 📝 Script Outline"

/-- Second fixed section heading of the rendered output. -/
def scriptHeading : String := "## 🎬 Final Script"

/-- Third fixed section heading of the rendered output. -/
def hashtagsHeading : String := "## 🏷️ Hashtags & Caption"

/-- Result formatting of `generate_script` (app.py 160-175): a single prefixed
error line when `error` is set, otherwise the three content fields under the
three fixed headings, with the whole template stripped. -/
def format_result (r : ScriptState) : String :=
  if r.error ≠ "" then "❌ " ++ r.error
  else
    pyStrip ("\n" ++ outlineHeading ++ "\n" ++ r.script_outline ++
      "\n\n" ++ scriptHeading ++ "\n" ++ r.final_script ++
      "\n\n" ++ hashtagsHeading ++ "\n" ++ r.hashtags ++ "\n        ")

/-- Run the whole pipeline from fresh inputs, returning the final state and
the number of client calls made. -/
def run_pipeline (oracle : Oracle) (topic : String) (duration : Nat)
    (tone platform language : String) : ScriptState × Nat :=
  invoke_workflow oracle (initial_state topic duration tone platform language)

/-- Embedding of `generate_script` (app.py 142-178): run the workflow and
format the final state. -/
def generate_script (oracle : Oracle) (topic : String) (duration : Nat)
    (tone platform language : String) : String :=
  format_result (run_pipeline oracle topic duration tone platform language).1

/-- Outcome of one form submission: a validation rejection or rendered output. -/
inductive SubmitOutcome where
  | rejected (msg : String)
  | rendered (output : String)
deriving DecidableEq, Repr

/-- Embedding of the form submission handler (app.py 193-201): a blank
(empty after stripping) topic is rejected with the validation message before
the pipeline runs; otherwise the pipeline runs and its rendering is shown.
The second component counts completion-client calls made while handling the
submission. -/
def handle_submit (oracle : Oracle) (topic : String) (duration : Nat)
    (tone platform language : String) : SubmitOutcome × Nat :=
  if pyStrip topic = "" then (SubmitOutcome.rejected "Please enter a topic!", 0)
  else
    (SubmitOutcome.rendered (generate_script oracle topic duration tone platform language),
     (run_pipeline oracle topic duration tone platform language).2)

/-- The module-level credential lookup `GROQ_API_KEY = os.getenv("GROQ_API_KEY")`
(app.py 13): the raw environment value, with no presence check and no failure
path. -/
def GROQ_API_KEY (env : Option String) : Option String := env

/-- The request headers `call_groq_api` sends (app.py 29-32), as a function of
the environment-sourced key: always built, for any key including an absent
one. -/
def request_headers (env : Option String) : List (String × String) :=
  [("Authorization", "Bearer " ++ pyStrOfOpt (GROQ_API_KEY env)),
   ("Content-Type", "application/json")]

set_option maxRecDepth 40000

set_option maxHeartbeats 1000000

/-! ## Helper lemmas -/

/-- A list is a prefix of itself followed by anything. -/
theorem isPrefixOf_self_append (n b : List Char) : n.isPrefixOf (n ++ b) = true := by
  induction n with
  | nil => simp [List.isPrefixOf]
  | cons c t ih => simp [List.isPrefixOf, ih]

/-- A prefix of a list occurs in it. -/
theorem occursIn_of_isPrefixOf (n h : List Char) (hp : n.isPrefixOf h = true) :
    occursIn n h = true := by
  cases h with
  | nil =>
    cases n with
    | nil => rfl
    | cons c t => simp [List.isPrefixOf] at hp
  | cons c t => simp [occursIn, hp]

/-- A list occurs in any list of the shape `a ++ (n ++ b)`. -/
theorem occursIn_append_mid (n a b : List Char) : occursIn n (a ++ (n ++ b)) = true := by
  induction a with
  | nil => exact occursIn_of_isPrefixOf n (n ++ b) (isPrefixOf_self_append n b)
  | cons c t ih => simp [occursIn, ih]

/-- A string occurs verbatim in any string of the shape `p ++ n ++ q`. -/
theorem strOccurs_append_mid (n p q : String) : strOccurs n (p ++ n ++ q) = true := by
  show occursIn n.data (p ++ n ++ q).data = true
  rw [String.data_append, String.data_append, List.append_assoc]
  exact occursIn_append_mid n.data p.data q.data

/-- Appending cannot erase a non-empty left part. -/
theorem append_ne_empty_of_left (s t : String) (h : s ≠ "") : s ++ t ≠ "" := by
  intro he
  apply h
  have hd : (s ++ t).data = ("" : String).data := congrArg String.data he
  rw [String.data_append] at hd
  have hnil : s.data = [] ∧ t.data = [] := List.append_eq_nil.mp hd
  exact String.ext_iff.mpr hnil.1

/-- Stripping from the right distributes over an append whose left part ends in
a non-whitespace character. -/
theorem stripRight_append (A R : List Char) (c : Char) (ar : List Char)
    (hA : A.reverse = c :: ar) (hc : isPyWs c = false) :
    stripRight (A ++ R) = A ++ stripRight R := by
  have hA' : A = (c :: ar).reverse := by rw [← hA, List.reverse_reverse]
  unfold stripRight
  rw [List.reverse_append, List.dropWhile_append, hA]
  by_cases h : (List.dropWhile isPyWs R.reverse).isEmpty
  · rw [if_pos h]
    have h0 : List.dropWhile isPyWs R.reverse = [] := by
      cases hd : List.dropWhile isPyWs R.reverse with
      | nil => rfl
      | cons x xs => rw [hd] at h; simp at h
    rw [h0, List.dropWhile_cons, hc]
    simp [hA']
  · rw [if_neg h]
    rw [List.reverse_append, hA']

/-- Reversing an append whose right part reverses to a cons. -/
theorem reverse_append_cons (Y Z : List Char) (c : Char) (zr : List Char)
    (h : Z.reverse = c :: zr) : (Y ++ Z).reverse = c :: (zr ++ Y.reverse) := by
  rw [List.reverse_append, h]
  rfl

/-! ## Claim C2: the completion client's two outcomes share one string channel -/

/-- Claim C2: for every prompt, `call_groq_api` returns the stripped first
completion choice when the response status is 200, and the sentinel string
"Error: <status> - <body>" for any other status; both are delivered through
the single `String` return channel. -/
theorem call_groq_api_spec (endpoint : String → HttpResponse) (prompt : String) :
    ((endpoint prompt).status_code = 200 →
      call_groq_api endpoint prompt = pyStrip (endpoint prompt).content) ∧
    ((endpoint prompt).status_code ≠ 200 →
      call_groq_api endpoint prompt =
        "Error: " ++ toString (endpoint prompt).status_code ++ " - " ++ (endpoint prompt).text) := by
  constructor
  · intro h
    simp [call_groq_api, h]
  · intro h
    simp [call_groq_api, h]

/-- A stub endpoint answering HTTP 200 with padded content. -/
def ex_endpoint_200 : String → HttpResponse := fun _ =>
  { status_code := 200, text := "", content := "  hello  " }

/-- A stub endpoint answering HTTP 404 with a body. -/
def ex_endpoint_404 : String → HttpResponse := fun _ =>
  { status_code := 404, text := "model not found", content := "" }

/-- Witness for claim C2 at two concrete responses. -/
theorem call_groq_api_spec_witness :
    call_groq_api ex_endpoint_200 "p" = pyStrip "  hello  " ∧
    call_groq_api ex_endpoint_404 "p" = "Error: " ++ toString 404 ++ " - " ++ "model not found" :=
  ⟨(call_groq_api_spec ex_endpoint_200 "p").1 rfl,
   (call_groq_api_spec ex_endpoint_404 "p").2 (by decide)⟩

/-! ## Claim C6: the "Any" platform default never fires for an empty platform -/

/-- Claim C6 (code bug evidence): on a state whose `platform` field is the
empty string, the outline prompt does not contain "Any" anywhere; the
`state.get('platform', 'Any')` default never fires because the key is always
present, so the prompt's platform line is "Platform: " followed directly by a
newline. -/
theorem platform_empty_not_defaulted :
    strOccurs "Any" (outline_prompt (initial_state "Yoga" 60 "Friendly" "" "English")) = false ∧
    strOccurs "Platform: \n"
      (outline_prompt (initial_state "Yoga" 60 "Friendly" "" "English")) = true := by
  constructor
  · decide
  · decide

/-! ## Claim C7: a missing credential does not fail fast -/

/-- Claim C7 (code bug evidence): with the environment variable absent, the
key lookup yields `none` with no failure path, and the request headers are
still built, carrying "Bearer None"; no configuration error is ever raised
before the request is sent. -/
theorem missing_key_sends_bearer_none :
    GROQ_API_KEY none = none ∧
    request_headers none =
      [("Authorization", "Bearer None"), ("Content-Type", "application/json")] :=
  ⟨rfl, rfl⟩

/-! ## Claim C8: blank topics are rejected before any client call -/

/-- Claim C8: a submission whose topic strips to the empty string is rejected
with the validation message, and zero completion-client calls are made; the
outcome does not depend on the oracle at all. -/
theorem blank_topic_rejected (oracle : Oracle) (topic : String) (duration : Nat)
    (tone platform language : String) (h : pyStrip topic = "") :
    handle_submit oracle topic duration tone platform language =
      (SubmitOutcome.rejected "Please enter a topic!", 0) := by
  simp [handle_submit, h]

/-- Witness for claim C8: a whitespace-only topic is rejected with no calls. -/
theorem blank_topic_rejected_witness :
    handle_submit (oracle_of_endpoint ex_endpoint_200) "   " 60 "Friendly" "" "English" =
      (SubmitOutcome.rejected "Please enter a topic!", 0) :=
  blank_topic_rejected (oracle_of_endpoint ex_endpoint_200) "   " 60 "Friendly" "" "English"
    (by decide)

/-! ## Claim C9: nodes never touch the five input fields -/

/-- Claim C9: every pipeline node (outline, script, hashtags) leaves the five
input fields topic, duration, tone, platform and language of the state
unchanged, whatever the client does. -/
theorem steps_preserve_inputs (oracle : Oracle) (sn : ScriptState × Nat) :
    ((create_outline_node oracle sn).1.topic = sn.1.topic ∧
     (create_outline_node oracle sn).1.duration = sn.1.duration ∧
     (create_outline_node oracle sn).1.tone = sn.1.tone ∧
     (create_outline_node oracle sn).1.platform = sn.1.platform ∧
     (create_outline_node oracle sn).1.language = sn.1.language) ∧
    ((generate_script_node oracle sn).1.topic = sn.1.topic ∧
     (generate_script_node oracle sn).1.duration = sn.1.duration ∧
     (generate_script_node oracle sn).1.tone = sn.1.tone ∧
     (generate_script_node oracle sn).1.platform = sn.1.platform ∧
     (generate_script_node oracle sn).1.language = sn.1.language) ∧
    ((generate_hashtags_node oracle sn).1.topic = sn.1.topic ∧
     (generate_hashtags_node oracle sn).1.duration = sn.1.duration ∧
     (generate_hashtags_node oracle sn).1.tone = sn.1.tone ∧
     (generate_hashtags_node oracle sn).1.platform = sn.1.platform ∧
     (generate_hashtags_node oracle sn).1.language = sn.1.language) := by
  refine ⟨?_, ?_, ?_⟩
  · cases h : oracle sn.2 (outline_prompt sn.1) <;> simp [create_outline_node, h]
  · by_cases he : sn.1.error ≠ ""
    · simp [generate_script_node, he]
    · cases h : oracle sn.2 (script_prompt sn.1) <;> simp [generate_script_node, he, h]
  · by_cases he : sn.1.error ≠ ""
    · simp [generate_hashtags_node, he]
    · cases h : oracle sn.2 (hashtag_prompt sn.1) <;> simp [generate_hashtags_node, he, h]

/-! ## Claim C10: per-step failure atomicity -/

/-- Claim C10: when the client raises during a step, that step leaves its own
content field untouched and sets `error` to exactly the step-identifying
prefix followed by the exception text; and no step ever writes a content
field other than its own. -/
theorem step_failure_atomicity (oracle : Oracle) (s : ScriptState) (n : Nat) (m : String) :
    (oracle n (outline_prompt s) = CallResult.exn m →
      create_outline_node oracle (s, n) =
        ({ s with error := "Error creating outline: " ++ m }, n + 1)) ∧
    (s.error = "" → oracle n (script_prompt s) = CallResult.exn m →
      generate_script_node oracle (s, n) =
        ({ s with error := "Error generating script: " ++ m }, n + 1)) ∧
    (s.error = "" → oracle n (hashtag_prompt s) = CallResult.exn m →
      generate_hashtags_node oracle (s, n) =
        ({ s with error := "Error generating hashtags: " ++ m }, n + 1)) ∧
    ((create_outline_node oracle (s, n)).1.final_script = s.final_script ∧
     (create_outline_node oracle (s, n)).1.hashtags = s.hashtags) ∧
    ((generate_script_node oracle (s, n)).1.script_outline = s.script_outline ∧
     (generate_script_node oracle (s, n)).1.hashtags = s.hashtags) ∧
    ((generate_hashtags_node oracle (s, n)).1.script_outline = s.script_outline ∧
     (generate_hashtags_node oracle (s, n)).1.final_script = s.final_script) := by
  refine ⟨?_, ?_, ?_, ?_, ?_, ?_⟩
  · intro h
    simp [create_outline_node, h]
  · intro he h
    simp [generate_script_node, he, h]
  · intro he h
    simp [generate_hashtags_node, he, h]
  · cases h : oracle n (outline_prompt s) <;> simp [create_outline_node, h]
  · by_cases he : s.error ≠ ""
    · simp [generate_script_node, he]
    · cases h : oracle n (script_prompt s) <;> simp [generate_script_node, he, h]
  · by_cases he : s.error ≠ ""
    · simp [generate_hashtags_node, he]
    · cases h : oracle n (hashtag_prompt s) <;> simp [generate_hashtags_node, he, h]

/-- A clean starting state used by several witnesses. -/
def ok_state : ScriptState := initial_state "Yoga" 60 "Friendly" "Instagram" "English"

/-- An oracle whose every call raises a transport fault. -/
def exn_oracle : Oracle := fun _ _ => CallResult.exn "timeout"

/-- Witness for claim C10 at a concrete raising client. -/
theorem step_failure_atomicity_witness :
    create_outline_node exn_oracle (ok_state, 0) =
      ({ ok_state with error := "Error creating outline: " ++ "timeout" }, 0 + 1) ∧
    generate_script_node exn_oracle (ok_state, 1) =
      ({ ok_state with error := "Error generating script: " ++ "timeout" }, 1 + 1) ∧
    generate_hashtags_node exn_oracle (ok_state, 2) =
      ({ ok_state with error := "Error generating hashtags: " ++ "timeout" }, 2 + 1) :=
  ⟨(step_failure_atomicity exn_oracle ok_state 0 "timeout").1 rfl,
   (step_failure_atomicity exn_oracle ok_state 1 "timeout").2.1 rfl rfl,
   (step_failure_atomicity exn_oracle ok_state 2 "timeout").2.2.1 rfl rfl⟩

/-! ## Claim C1: a sentinel error string from step 1 flows into step 2 -/

/-- Claim C1: when step 1's client call returns (rather than raises) the
sentinel error string that `call_groq_api` produces for a non-200 response,
the error field stays empty, step 2 still executes (it makes a second client
call and stores whatever that call returns), and step 2's prompt contains the
sentinel verbatim where the outline would appear. -/
theorem sentinel_feeds_step2 (oracle : Oracle) (s : ScriptState) (n status : Nat)
    (body sentinel : String)
    (herr : s.error = "")
    (hstatus : status ≠ 200)
    (hsent : sentinel = "Error: " ++ toString status ++ " - " ++ body)
    (hcall : oracle n (outline_prompt s) = CallResult.ok sentinel) :
    (∀ content : String,
      call_groq_api (fun _ => { status_code := status, text := body, content := content })
        (outline_prompt s) = sentinel) ∧
    (create_outline_node oracle (s, n)).1.script_outline = sentinel ∧
    (create_outline_node oracle (s, n)).1.error = "" ∧
    (generate_script_node oracle (create_outline_node oracle (s, n))).2 = n + 2 ∧
    strOccurs sentinel (script_prompt (create_outline_node oracle (s, n)).1) = true ∧
    (∀ r : String,
      oracle (n + 1) (script_prompt (create_outline_node oracle (s, n)).1) = CallResult.ok r →
      (generate_script_node oracle (create_outline_node oracle (s, n))).1.final_script = r) := by
  obtain ⟨tp, du, tn, pf, lg, so, fs, ht, err⟩ := s
  have herr' : err = "" := herr
  subst herr'
  have hnode : create_outline_node oracle (ScriptState.mk tp du tn pf lg so fs ht "", n) =
      (ScriptState.mk tp du tn pf lg sentinel fs ht "", n + 1) := by
    simp [create_outline_node, hcall]
  refine ⟨?_, ?_, ?_, ?_, ?_, ?_⟩
  · intro content
    simp [call_groq_api, hstatus, hsent]
  · rw [hnode]
  · rw [hnode]
  · rw [hnode]
    cases hc : oracle (n + 1) (script_prompt (ScriptState.mk tp du tn pf lg sentinel fs ht "")) <;>
      simp [generate_script_node, hc]
  · rw [hnode]
    show occursIn sentinel.data
      (script_prompt (ScriptState.mk tp du tn pf lg sentinel fs ht "")).data = true
    simp only [script_prompt, String.data_append, List.append_assoc]
    exact occursIn_append_mid sentinel.data _ _
  · intro r hr
    rw [hnode] at hr ⊢
    simp [generate_script_node, hr]

/-- An oracle whose first call returns the sentinel error string of an
internal-server-error response and whose later calls succeed. -/
def sentinel_oracle : Oracle := fun n _ =>
  if n = 0 then CallResult.ok ("Error: " ++ toString 500 ++ " - " ++ "upstream failure")
  else CallResult.ok "SCRIPT"

/-- Witness for claim C1 at a concrete sentinel-returning client. -/
theorem sentinel_feeds_step2_witness :
    (create_outline_node sentinel_oracle (ok_state, 0)).1.script_outline =
      "Error: " ++ toString 500 ++ " - " ++ "upstream failure" ∧
    strOccurs ("Error: " ++ toString 500 ++ " - " ++ "upstream failure")
      (script_prompt (create_outline_node sentinel_oracle (ok_state, 0)).1) = true ∧
    (generate_script_node sentinel_oracle (create_outline_node sentinel_oracle (ok_state, 0))).2 =
      0 + 2 :=
  have h := sentinel_feeds_step2 sentinel_oracle ok_state 0 500 "upstream failure"
    ("Error: " ++ toString 500 ++ " - " ++ "upstream failure") rfl (by decide) rfl rfl
  ⟨h.2.1, h.2.2.2.2.1, h.2.2.2.1⟩

/-! ## Claim C3: transport faults short-circuit the rest of the pipeline -/

/-- Helper: once `error` is non-empty, the script and hashtag steps return
their input unchanged. -/
theorem error_skips (oracle : Oracle) (s : ScriptState) (k : Nat) (h : s.error ≠ "") :
    generate_script_node oracle (s, k) = (s, k) ∧
    generate_hashtags_node oracle (s, k) = (s, k) := by
  constructor <;> simp [generate_script_node, generate_hashtags_node, h]

/-- An oracle whose first call succeeds and whose second call raises. -/
def step2_fault_oracle : Oracle := fun n _ =>
  if n = 0 then CallResult.ok "OUT" else CallResult.exn "connection reset"

/-- Claim C3 counterexample: with a client that succeeds at step 1 and first
raises a transport fault at step 2, the final state leaves `final_script`
empty as well, so it is not the case that only `hashtags` remains empty. -/
theorem step2_fault_counterexample :
    (run_pipeline step2_fault_oracle "Yoga" 60 "Friendly" "Instagram" "English").1.script_outline
      = "OUT" ∧
    (run_pipeline step2_fault_oracle "Yoga" 60 "Friendly" "Instagram" "English").1.final_script
      = "" ∧
    (run_pipeline step2_fault_oracle "Yoga" 60 "Friendly" "Instagram" "English").1.hashtags
      = "" ∧
    (run_pipeline step2_fault_oracle "Yoga" 60 "Friendly" "Instagram" "English").1.error
      = "Error generating script: connection reset" := by
  refine ⟨?_, ?_, ?_, ?_⟩ <;> decide

/-- Claim C3 (amended): a fault first raised at step 1 leaves `final_script`
and `hashtags` empty with `error` non-empty; a fault first raised at step 2
leaves `final_script` and `hashtags` empty with `error` non-empty; a fault
first raised at step 3 leaves `error` non-empty; and once `error` is set,
every subsequent step returns the state unchanged. -/
theorem fault_propagation (oracle : Oracle) (topic : String) (duration : Nat)
    (tone platform language m : String) :
    ((∀ p, oracle 0 p = CallResult.exn m) →
      (run_pipeline oracle topic duration tone platform language).1.final_script = "" ∧
      (run_pipeline oracle topic duration tone platform language).1.hashtags = "" ∧
      (run_pipeline oracle topic duration tone platform language).1.error ≠ "") ∧
    (∀ o : String, (∀ p, oracle 0 p = CallResult.ok o) →
      (∀ p, oracle 1 p = CallResult.exn m) →
      (run_pipeline oracle topic duration tone platform language).1.final_script = "" ∧
      (run_pipeline oracle topic duration tone platform language).1.hashtags = "" ∧
      (run_pipeline oracle topic duration tone platform language).1.error ≠ "") ∧
    (∀ o sc : String, (∀ p, oracle 0 p = CallResult.ok o) →
      (∀ p, oracle 1 p = CallResult.ok sc) →
      (∀ p, oracle 2 p = CallResult.exn m) →
      (run_pipeline oracle topic duration tone platform language).1.hashtags = "" ∧
      (run_pipeline oracle topic duration tone platform language).1.error ≠ "") ∧
    (∀ (s : ScriptState) (k : Nat), s.error ≠ "" →
      generate_script_node oracle (s, k) = (s, k) ∧
      generate_hashtags_node oracle (s, k) = (s, k)) := by
  refine ⟨?_, ?_, ?_, ?_⟩
  · intro h0
    have hne : ("Error creating outline: " ++ m) ≠ "" :=
      append_ne_empty_of_left _ m (by decide)
    have e1 : create_outline_node oracle (initial_state topic duration tone platform language, 0) =
        ({ initial_state topic duration tone platform language with
            error := "Error creating outline: " ++ m }, 1) := by
      simp [create_outline_node, h0]
    have e2 := error_skips oracle ({ initial_state topic duration tone platform language with
        error := "Error creating outline: " ++ m }) 1 hne
    simp only [run_pipeline, invoke_workflow, e1, e2.1, e2.2]
    exact ⟨rfl, rfl, hne⟩
  · intro o h0 h1
    have hne : ("Error generating script: " ++ m) ≠ "" :=
      append_ne_empty_of_left _ m (by decide)
    have e1 : create_outline_node oracle (initial_state topic duration tone platform language, 0) =
        ({ initial_state topic duration tone platform language with
            script_outline := o }, 1) := by
      simp [create_outline_node, h0]
    have e2 : generate_script_node oracle
        ({ initial_state topic duration tone platform language with script_outline := o }, 1) =
        ({ initial_state topic duration tone platform language with
            script_outline := o, error := "Error generating script: " ++ m }, 2) := by
      simp [generate_script_node, initial_state, h1]
    have e3 := error_skips oracle ({ initial_state topic duration tone platform language with
        script_outline := o, error := "Error generating script: " ++ m }) 2 hne
    simp only [run_pipeline, invoke_workflow, e1, e2, e3.2]
    exact ⟨rfl, rfl, hne⟩
  · intro o sc h0 h1 h2
    have hne : ("Error generating hashtags: " ++ m) ≠ "" :=
      append_ne_empty_of_left _ m (by decide)
    have e1 : create_outline_node oracle (initial_state topic duration tone platform language, 0) =
        ({ initial_state topic duration tone platform language with
            script_outline := o }, 1) := by
      simp [create_outline_node, h0]
    have e2 : generate_script_node oracle
        ({ initial_state topic duration tone platform language with script_outline := o }, 1) =
        ({ initial_state topic duration tone platform language with
            script_outline := o, final_script := sc }, 2) := by
      simp [generate_script_node, initial_state, h1]
    have e3 : generate_hashtags_node oracle
        ({ initial_state topic duration tone platform language with
            script_outline := o, final_script := sc }, 2) =
        ({ initial_state topic duration tone platform language with
            script_outline := o, final_script := sc,
            error := "Error generating hashtags: " ++ m }, 3) := by
      simp [generate_hashtags_node, initial_state, h2]
    simp only [run_pipeline, invoke_workflow, e1, e2, e3]
    exact ⟨rfl, hne⟩
  · intro s k h
    exact error_skips oracle s k h

/-- Witness for claim C3 (amended) at a concrete always-raising client. -/
theorem fault_propagation_witness :
    (run_pipeline exn_oracle "Yoga" 60 "Friendly" "" "English").1.final_script = "" ∧
    (run_pipeline exn_oracle "Yoga" 60 "Friendly" "" "English").1.hashtags = "" ∧
    (run_pipeline exn_oracle "Yoga" 60 "Friendly" "" "English").1.error ≠ "" :=
  (fault_propagation exn_oracle "Yoga" 60 "Friendly" "" "English" "timeout").1 (fun _ => rfl)

/-! ## Claim C4: the completion invariant -/

/-- All three content fields populated and no error recorded. -/
def all_populated (r : ScriptState) : Prop :=
  r.script_outline ≠ "" ∧ r.final_script ≠ "" ∧ r.hashtags ≠ "" ∧ r.error = ""

/-- A non-empty error was recorded. -/
def failed (r : ScriptState) : Prop := r.error ≠ ""

instance (r : ScriptState) : Decidable (all_populated r) := by
  unfold all_populated
  infer_instance

instance (r : ScriptState) : Decidable (failed r) := by
  unfold failed
  infer_instance

/-- An endpoint that always answers HTTP 200 whose completion content strips
to the empty string. -/
def empty_content_endpoint : String → HttpResponse := fun _ =>
  { status_code := 200, text := "", content := "   " }

/-- Claim C4 counterexample: with a client that always succeeds but returns an
empty completion, the run finishes with every content field empty and `error`
empty, so neither disjunct of the claimed invariant holds. -/
theorem invariant_counterexample :
    ¬ ((all_populated (run_pipeline (oracle_of_endpoint empty_content_endpoint)
          "Yoga" 60 "Friendly" "" "English").1 ∧
        ¬ failed (run_pipeline (oracle_of_endpoint empty_content_endpoint)
          "Yoga" 60 "Friendly" "" "English").1) ∨
       (failed (run_pipeline (oracle_of_endpoint empty_content_endpoint)
          "Yoga" 60 "Friendly" "" "English").1 ∧
        ¬ all_populated (run_pipeline (oracle_of_endpoint empty_content_endpoint)
          "Yoga" 60 "Friendly" "" "English").1)) := by
  decide

/-- Claim C4 (amended): provided every successful client response is a
non-empty string, exactly one of the two completion shapes holds: either all
three content fields are populated and `error` is empty, or `error` is
non-empty. -/
theorem pipeline_invariant (oracle : Oracle) (topic : String) (duration : Nat)
    (tone platform language : String)
    (hok : ∀ (k : Nat) (p t : String), oracle k p = CallResult.ok t → t ≠ "") :
    (all_populated (run_pipeline oracle topic duration tone platform language).1 ∧
     ¬ failed (run_pipeline oracle topic duration tone platform language).1) ∨
    (failed (run_pipeline oracle topic duration tone platform language).1 ∧
     ¬ all_populated (run_pipeline oracle topic duration tone platform language).1) := by
  simp only [run_pipeline, invoke_workflow, initial_state]
  cases h1 : oracle 0
      (outline_prompt (ScriptState.mk topic duration tone platform language "" "" "" "")) with
  | exn m =>
    have hne : ("Error creating outline: " ++ m) ≠ "" :=
      append_ne_empty_of_left _ m (by decide)
    have e1 : create_outline_node oracle
        (ScriptState.mk topic duration tone platform language "" "" "" "", 0) =
        (ScriptState.mk topic duration tone platform language "" "" ""
          ("Error creating outline: " ++ m), 1) := by
      simp [create_outline_node, h1]
    have e2 := error_skips oracle
      (ScriptState.mk topic duration tone platform language "" "" ""
        ("Error creating outline: " ++ m)) 1 hne
    rw [e1, e2.1, e2.2]
    exact Or.inr ⟨hne, fun ha => hne ha.2.2.2⟩
  | ok o =>
    have ho : o ≠ "" := hok 0 _ o h1
    have e1 : create_outline_node oracle
        (ScriptState.mk topic duration tone platform language "" "" "" "", 0) =
        (ScriptState.mk topic duration tone platform language o "" "" "", 1) := by
      simp [create_outline_node, h1]
    cases h2 : oracle 1
        (script_prompt (ScriptState.mk topic duration tone platform language o "" "" "")) with
    | exn m =>
      have hne : ("Error generating script: " ++ m) ≠ "" :=
        append_ne_empty_of_left _ m (by decide)
      have e2 : generate_script_node oracle
          (ScriptState.mk topic duration tone platform language o "" "" "", 1) =
          (ScriptState.mk topic duration tone platform language o "" ""
            ("Error generating script: " ++ m), 2) := by
        simp [generate_script_node, h2]
      have e3 := error_skips oracle
        (ScriptState.mk topic duration tone platform language o "" ""
          ("Error generating script: " ++ m)) 2 hne
      rw [e1, e2, e3.2]
      exact Or.inr ⟨hne, fun ha => hne ha.2.2.2⟩
    | ok sc =>
      have hsc : sc ≠ "" := hok 1 _ sc h2
      have e2 : generate_script_node oracle
          (ScriptState.mk topic duration tone platform language o "" "" "", 1) =
          (ScriptState.mk topic duration tone platform language o sc "" "", 2) := by
        simp [generate_script_node, h2]
      cases h3 : oracle 2
          (hashtag_prompt (ScriptState.mk topic duration tone platform language o sc "" "")) with
      | exn m =>
        have hne : ("Error generating hashtags: " ++ m) ≠ "" :=
          append_ne_empty_of_left _ m (by decide)
        have e3 : generate_hashtags_node oracle
            (ScriptState.mk topic duration tone platform language o sc "" "", 2) =
            (ScriptState.mk topic duration tone platform language o sc ""
              ("Error generating hashtags: " ++ m), 3) := by
          simp [generate_hashtags_node, h3]
        rw [e1, e2, e3]
        exact Or.inr ⟨hne, fun ha => hne ha.2.2.2⟩
      | ok tg =>
        have htg : tg ≠ "" := hok 2 _ tg h3
        have e3 : generate_hashtags_node oracle
            (ScriptState.mk topic duration tone platform language o sc "" "", 2) =
            (ScriptState.mk topic duration tone platform language o sc tg "", 3) := by
          simp [generate_hashtags_node, h3]
        rw [e1, e2, e3]
        exact Or.inl ⟨⟨ho, hsc, htg, rfl⟩, fun hb => hb rfl⟩

/-- The fixed deterministic stub of the spec: "OUTLINE", "SCRIPT", "TAGS" for
the three successive calls. -/
def nonempty_stub_oracle : Oracle := fun n _ =>
  if n = 0 then CallResult.ok "OUTLINE"
  else if n = 1 then CallResult.ok "SCRIPT"
  else CallResult.ok "TAGS"

/-- Witness for claim C4 (amended) at the fixed non-empty stub. -/
theorem pipeline_invariant_witness :
    (all_populated (run_pipeline nonempty_stub_oracle "Yoga" 60 "Friendly" "Instagram" "English").1 ∧
     ¬ failed (run_pipeline nonempty_stub_oracle "Yoga" 60 "Friendly" "Instagram" "English").1) ∨
    (failed (run_pipeline nonempty_stub_oracle "Yoga" 60 "Friendly" "Instagram" "English").1 ∧
     ¬ all_populated (run_pipeline nonempty_stub_oracle "Yoga" 60 "Friendly" "Instagram" "English").1) :=
  pipeline_invariant nonempty_stub_oracle "Yoga" 60 "Friendly" "Instagram" "English"
    (by
      intro k p t h
      simp only [nonempty_stub_oracle] at h
      split at h
      · injection h with h2
        subst h2
        decide
      · split at h
        · injection h with h2
          subst h2
          decide
        · injection h with h2
          subst h2
          decide)

/-! ## Claim C5: terminal rendering -/

/-- Character data of a single newline literal. -/
theorem data_nl : "\n".data = ['\n'] := by decide

/-- Character data of a double newline literal. -/
theorem data_nl2 : "\n\n".data = ['\n', '\n'] := by decide

/-- Dropping leading whitespace skips a whitespace head. -/
theorem stripLeft_cons_ws (c : Char) (l : List Char) (h : isPyWs c = true) :
    stripLeft (c :: l) = stripLeft l := by
  simp [stripLeft, List.dropWhile_cons, h]

/-- Dropping leading whitespace stops at a non-whitespace head. -/
theorem stripLeft_cons_not_ws (c : Char) (l : List Char) (h : isPyWs c = false) :
    stripLeft (c :: l) = c :: l := by
  simp [stripLeft, List.dropWhile_cons, h]

/-- The first heading starts with a hash mark. -/
theorem outlineHeading_head : outlineHeading.data = '#' :: "# 📝 Script Outline".data := by
  decide

/-- In the no-error case the rendered output decomposes exactly as the three
fixed headings in order, each followed by the corresponding content field; the
hashtags block is the final tail, right-stripped together with the template's
trailing padding because the whole template is stripped. -/
theorem render_sections (r : ScriptState) (h : r.error = "") :
    (format_result r).data =
      outlineHeading.data ++ ('\n' :: r.script_outline.data) ++
      ('\n' :: '\n' :: scriptHeading.data) ++ ('\n' :: r.final_script.data) ++
      ('\n' :: '\n' :: hashtagsHeading.data) ++
      stripRight ('\n' :: (r.hashtags.data ++ "\n        ".data)) := by
  set A := outlineHeading.data ++ ('\n' :: r.script_outline.data) ++
      ('\n' :: '\n' :: scriptHeading.data) ++ ('\n' :: r.final_script.data) ++
      ('\n' :: '\n' :: hashtagsHeading.data) with hAdef
  set R := '\n' :: (r.hashtags.data ++ "\n        ".data) with hRdef
  have hfmt : format_result r =
      pyStrip ("\n" ++ outlineHeading ++ "\n" ++ r.script_outline ++ "\n\n" ++ scriptHeading ++
        "\n" ++ r.final_script ++ "\n\n" ++ hashtagsHeading ++ "\n" ++ r.hashtags ++
        "\n        ") := by
    simp [format_result, h]
  have hdata : ("\n" ++ outlineHeading ++ "\n" ++ r.script_outline ++ "\n\n" ++ scriptHeading ++
      "\n" ++ r.final_script ++ "\n\n" ++ hashtagsHeading ++ "\n" ++ r.hashtags ++
      "\n        ").data = '\n' :: (A ++ R) := by
    rw [hAdef, hRdef]
    simp [String.data_append, data_nl, data_nl2, List.append_assoc]
  obtain ⟨c, ar, hrev, hc⟩ : ∃ c ar, A.reverse = c :: ar ∧ isPyWs c = false := by
    rw [hAdef]
    exact ⟨'n', _, reverse_append_cons _ _ 'n'
      ("## 🏷️ Hashtags & Captio".data.reverse ++ ['\n', '\n']) (by decide), by decide⟩
  have hhead : ∀ l2 : List Char,
      stripLeft (outlineHeading.data ++ l2) = outlineHeading.data ++ l2 := by
    intro l2
    rw [outlineHeading_head, List.cons_append]
    exact stripLeft_cons_not_ws '#' _ (by decide)
  have hassoc : A ++ R = outlineHeading.data ++ (('\n' :: r.script_outline.data) ++
      (('\n' :: '\n' :: scriptHeading.data) ++ (('\n' :: r.final_script.data) ++
      (('\n' :: '\n' :: hashtagsHeading.data) ++ R)))) := by
    rw [hAdef]
    simp [List.append_assoc]
  have hleft : stripLeft (A ++ R) = A ++ R := by
    rw [hassoc]
    exact hhead _
  have hstrip : stripRight (A ++ R) = A ++ stripRight R := stripRight_append A R c ar hrev hc
  rw [hfmt]
  show stripRight (stripLeft (("\n" ++ outlineHeading ++ "\n" ++ r.script_outline ++ "\n\n" ++
    scriptHeading ++ "\n" ++ r.final_script ++ "\n\n" ++ hashtagsHeading ++ "\n" ++ r.hashtags ++
    "\n        ").data)) = A ++ stripRight R
  rw [hdata, stripLeft_cons_ws '\n' _ (by decide), hleft, hstrip]

/-- Claim C5: when `error` is non-empty the rendered output is the single
prefixed error line; otherwise it is exactly the three content fields under
the three fixed section headings, in the order outline, script, hashtags,
with the hashtags block (right-stripped together with the template's trailing
padding, as the whole-template strip requires) following the third heading.
The render is a pure function of the final state, so a deterministic stub
client yields a deterministic rendered string. -/
theorem render_spec (r : ScriptState) :
    (r.error ≠ "" → format_result r = "❌ " ++ r.error) ∧
    (r.error = "" →
      (format_result r).data =
        outlineHeading.data ++ ('\n' :: r.script_outline.data) ++
        ('\n' :: '\n' :: scriptHeading.data) ++ ('\n' :: r.final_script.data) ++
        ('\n' :: '\n' :: hashtagsHeading.data) ++
        stripRight ('\n' :: (r.hashtags.data ++ "\n        ".data))) := by
  constructor
  · intro h
    simp [format_result, h]
  · intro h
    exact render_sections r h

/-- Witness for claim C5: a concrete failed state renders as the single error
line, and the state produced by the fixed "OUTLINE"/"SCRIPT"/"TAGS" stub
renders as exactly the three headings in order, each followed by its content
field, the hashtags block forming the stripped tail. -/
theorem render_spec_witness :
    format_result { ok_state with error := "boom" } = "❌ " ++ "boom" ∧
    (format_result
        (run_pipeline nonempty_stub_oracle "Yoga" 60 "Friendly" "Instagram" "English").1).data =
      outlineHeading.data ++
      ('\n' :: (run_pipeline nonempty_stub_oracle "Yoga" 60 "Friendly" "Instagram"
        "English").1.script_outline.data) ++
      ('\n' :: '\n' :: scriptHeading.data) ++
      ('\n' :: (run_pipeline nonempty_stub_oracle "Yoga" 60 "Friendly" "Instagram"
        "English").1.final_script.data) ++
      ('\n' :: '\n' :: hashtagsHeading.data) ++
      stripRight ('\n' :: ((run_pipeline nonempty_stub_oracle "Yoga" 60 "Friendly" "Instagram"
        "English").1.hashtags.data ++ "\n        ".data)) :=
  ⟨(render_spec { ok_state with error := "boom" }).1 (by decide),
   (render_spec (run_pipeline nonempty_stub_oracle "Yoga" 60 "Friendly" "Instagram"
     "English").1).2 (by decide)⟩
